import Mathlib

/-!
Verification of the ScreamingTom single-site crawler (`src/ScreamingTom.py`).

URLs and text lines are modelled as `List Char` (`Url`). Python sets are
modelled as duplicate-free lists maintained by `sinsert` (insert at the end if
absent), so membership and cardinality agree with Python's `set` semantics;
the arbitrary iteration/pop order of a Python set is refined to a fixed
deterministic order, which is sound for universally quantified statements and
is noted where a concrete execution is exhibited.

External effects (the headless browser, HTTP requests) are modelled as
oracles: a `WebEnv` gives, per URL, the navigation outcome of `page.goto`,
the result of the `a[href]` DOM query used by `get_all_links`, and the result
of the two DOM queries used by `count_files_and_images` (`none` models a
query that raises, which those functions catch themselves). Python exceptions
that escape a function are modelled with `Except`.
-/

deriving instance DecidableEq for Except

/-- URLs / text as lists of characters. -/
abbrev Url := List Char

/-- Coerce a Lean string literal to the `Url` representation. -/
def lit (s : String) : Url := s.data

/-- `isPrefixB n h` is true iff `n` is a prefix of `h`. -/
def isPrefixB : Url → Url → Bool
  | [], _ => true
  | _ :: _, [] => false
  | a :: as, b :: bs => a = b && isPrefixB as bs

/-- Python's substring test `n in h`. -/
def substrB (n : Url) : Url → Bool
  | [] => isPrefixB n []
  | c :: t => isPrefixB n (c :: t) || substrB n t

/-- Characters before the first occurrence of `c` (all of `u` if absent);
this is Python's `u.split(c)[0]`. -/
def takeUntil (c : Char) : Url → Url
  | [] => []
  | x :: xs => if x = c then [] else x :: takeUntil c xs

/-- Split at the first occurrence of `c`, if any. -/
def splitAtFirstOpt (c : Char) : Url → Option (Url × Url)
  | [] => none
  | x :: xs =>
    if x = c then some ([], xs)
    else (splitAtFirstOpt c xs).map (fun p => (x :: p.1, p.2))

/-- Split at the first occurrence of `c`; the second component is `[]` when
`c` does not occur (Python's `split(c, 1)` pattern used by `urlsplit`). -/
def splitAtFirst (c : Char) (u : Url) : Url × Url :=
  match splitAtFirstOpt c u with
  | none => (u, [])
  | some p => p

/-- Python's full `str.split(c)` on a single-character separator. -/
def splitOnCharFull (c : Char) : Url → List Url
  | [] => [[]]
  | x :: xs =>
    if x = c then [] :: splitOnCharFull c xs
    else
      match splitOnCharFull c xs with
      | [] => [[x]]
      | h :: t => (x :: h) :: t

/-- Drop leading whitespace. -/
def stripLeftWs : Url → Url
  | [] => []
  | c :: cs => if c.isWhitespace then stripLeftWs cs else c :: cs

/-- Python's `str.strip()` (whitespace on both ends). -/
def pyStrip (u : Url) : Url := stripLeftWs ((stripLeftWs u.reverse).reverse)

/-- Numeric value of a digit character. -/
def digitVal (c : Char) : Nat := c.toNat - '0'.toNat

/-- Digits of a Python integer literal after the first digit: groups of
digits separated by single underscores (no trailing or doubled underscore). -/
def pyDigitsAux : Nat → Url → Option Nat
  | acc, [] => some acc
  | acc, '_' :: c :: cs =>
    if c.isDigit then pyDigitsAux (acc * 10 + digitVal c) cs else none
  | acc, c :: cs =>
    if c.isDigit then pyDigitsAux (acc * 10 + digitVal c) cs else none

/-- Digit part of a Python `int()` literal: must start with a digit. -/
def pyDigits : Url → Option Nat
  | [] => none
  | c :: cs => if c.isDigit then pyDigitsAux (digitVal c) cs else none

/-- Python's `int(s)` on a decimal string: strips whitespace, allows an
optional sign, requires at least one digit; `none` models `ValueError`. -/
def pyIntOf (u : Url) : Option Int :=
  match pyStrip u with
  | '+' :: rest => (pyDigits rest).map Int.ofNat
  | '-' :: rest => (pyDigits rest).map (fun n => -(n : Int))
  | rest => (pyDigits rest).map Int.ofNat

/-! ## The embedding of `urllib.parse.urlparse`

`is_login_redirect` calls `urllib.parse.urlparse`. We embed CPython's
`urlsplit`/`urlparse` for absolute and relative URLs: leading WHATWG C0
control/space characters are stripped and tab/CR/LF removed, a scheme is
recognised before the first `:` when it starts with an ASCII letter and uses
only scheme characters, a netloc after `//` runs to the first of `/?#`, the
fragment is split at the first `#`, the query at the first `?`, and for
schemes in `uses_params` the params are split off the last path segment.
`urlsplit` raises `ValueError` ("Invalid IPv6 URL") when the netloc contains
an unbalanced square bracket; that is the `Except.error` case. -/

/-- Characters allowed in a URL scheme. -/
def schemeChar (c : Char) : Bool :=
  c.isAlpha || c.isDigit || c = '+' || c = '-' || c = '.'

/-- Remove leading C0-control/space characters (CPython `urlsplit` lstrip). -/
def lstripControl : Url → Url
  | [] => []
  | c :: cs => if c.toNat ≤ 32 then lstripControl cs else c :: cs

/-- Remove tab, CR and LF anywhere (CPython `_UNSAFE_URL_BYTES_TO_REMOVE`). -/
def removeUnsafeBytes (u : Url) : Url :=
  u.filter (fun c => !(c = '\t' || c = '\r' || c = '\n'))

/-- Split a recognised scheme off the URL, lowercased; otherwise no scheme. -/
def splitScheme (u : Url) : Url × Url :=
  match splitAtFirstOpt ':' u with
  | none => ([], u)
  | some (pre, post) =>
    match pre with
    | [] => ([], u)
    | c :: _ =>
      if c.isAlpha && pre.all schemeChar then (pre.map Char.toLower, post)
      else ([], u)

/-- Characters strictly before the last occurrence of `c`. -/
def beforeLast (c : Char) : Url → Url
  | [] => []
  | x :: xs =>
    if c ∈ xs then x :: beforeLast c xs
    else if x = c then []
    else x :: beforeLast c xs

/-- Suffix of `u` starting at the last occurrence of `c` (empty if absent). -/
def fromLast (c : Char) : Url → Url
  | [] => []
  | x :: xs =>
    if c ∈ xs then fromLast c xs
    else if x = c then x :: xs
    else []

/-- CPython `_splitparams`: split params off the last path segment. Called
only when `;` occurs in the path. -/
def splitparams (p : Url) : Url × Url :=
  if '/' ∈ p then
    let tail := fromLast '/' p
    if ';' ∈ tail then (beforeLast '/' p ++ takeUntil ';' tail, (splitAtFirst ';' tail).2)
    else (p, [])
  else splitAtFirst ';' p

/-- The components returned by `urllib.parse.urlparse`. -/
structure UrlParts where
  scheme : Url
  netloc : Url
  path : Url
  params : Url
  query : Url
  fragment : Url
deriving DecidableEq

/-- Schemes for which CPython `urlparse` splits params (`uses_params`). -/
def uses_params_schemes : List Url :=
  [lit "", lit "ftp", lit "hdl", lit "prospero", lit "http", lit "imap",
   lit "https", lit "shttp", lit "rtsp", lit "rtspu", lit "sip", lit "sips",
   lit "mms", lit "sftp", lit "tel"]

/-- CPython `urllib.parse.urlparse`; `Except.error` models the `ValueError`
raised on a netloc with unbalanced square brackets ("Invalid IPv6 URL"). -/
def urlparseE (url : Url) : Except Unit UrlParts :=
  let u1 := removeUnsafeBytes (lstripControl url)
  let sp := splitScheme u1
  let nl :=
    match sp.2 with
    | '/' :: '/' :: r => r.span (fun c => !(c = '/' || c = '?' || c = '#'))
    | u2 => ([], u2)
  if (nl.1.contains '[' && !nl.1.contains ']')
      || (nl.1.contains ']' && !nl.1.contains '[') then
    Except.error ()
  else
    let fq := splitAtFirst '#' nl.2
    let pq := splitAtFirst '?' fq.1
    if sp.1 ∈ uses_params_schemes ∧ ';' ∈ pq.1 then
      let pp := splitparams pq.1
      Except.ok ⟨sp.1, nl.1, pp.1, pp.2, pq.2, fq.2⟩
    else
      Except.ok ⟨sp.1, nl.1, pq.1, [], pq.2, fq.2⟩

/-- `urlparseE` succeeds (the Python call does not raise). -/
def parsesOk (u : Url) : Bool :=
  match urlparseE u with
  | Except.ok _ => true
  | Except.error _ => false

/-- `is_login_redirect` (lines 10-14): true iff `'sign_in' in parsed.path and
'destination' in parsed.query`; the `ValueError` that `urlparse` can raise
propagates to the caller. -/
def is_login_redirect (url : Url) : Except Unit Bool :=
  match urlparseE url with
  | Except.error e => Except.error e
  | Except.ok parsed =>
    Except.ok (substrB (lit "sign_in") parsed.path
      && substrB (lit "destination") parsed.query)

/-! ## Politeness policy: `get_crawl_delay_from_robots_txt` (lines 16-26) -/

/-- Outcome of the single `requests.get` of `/robots.txt`: `raise` models any
exception from the request itself, `response` a reply with a status code and
body lines (`response.text.splitlines()`). -/
inductive RobotsResponse where
  | raise : RobotsResponse
  | response (status : Int) (body : List Url) : RobotsResponse
deriving DecidableEq

/-- The token searched for in each robots.txt line. -/
def crawlDelayTok : Url := lit "Crawl-delay"

/-- `int(line.split(":")[1].strip())`; `none` models the `IndexError` (no
colon) or `ValueError` (non-integer) that the enclosing `try` catches. -/
def parseAfterColon (line : Url) : Option Int :=
  match (splitOnCharFull ':' line).drop 1 with
  | [] => none
  | part :: _ => pyIntOf (pyStrip part)

/-- `get_crawl_delay_from_robots_txt`: on a 200 response, return the parsed
integer after the colon of the first line containing `Crawl-delay`; any
exception (request failure, bad parse) and every other path yield `None`. -/
def get_crawl_delay_from_robots_txt : RobotsResponse → Option Int
  | RobotsResponse.raise => none
  | RobotsResponse.response status body =>
    if status = 200 then
      match body.find? (fun line => substrB crawlDelayTok line) with
      | some line => parseAfterColon line
      | none => none
    else none

/-- Lines 58-60 of `crawl_website`: the resolved delay defaults to 1. -/
def resolveCrawlDelay (r : RobotsResponse) : Int :=
  (get_crawl_delay_from_robots_txt r).getD 1

/-! ## Renderer oracles and the extraction helpers (lines 28-51) -/

/-- Outcome of `page.goto(current_url)`: the call can raise (navigation
error), return `None`, or return a response with a status code. -/
inductive NavOutcome where
  | raise : NavOutcome
  | noResponse : NavOutcome
  | response (status : Int) : NavOutcome
deriving DecidableEq

/-- The environment of one crawl: the robots.txt reply and, per navigated
URL, the `page.goto` outcome, the `a[href]` hrefs seen by `get_all_links`
(`none` models a DOM query that raises), and the `(a[href], img[src])`
results of the two queries in `count_files_and_images` (`none` models a
query that raises there). -/
structure WebEnv where
  robots : RobotsResponse
  nav : Url → NavOutcome
  anchorsQ : Url → Option (List Url)
  domQ : Url → Option (List Url × List Url)

/-- `get_all_links` (lines 28-34): the hrefs of the rendered page, or the
empty set when the DOM query raises (caught and logged inside). -/
def get_all_links (q : Option (List Url)) : List Url := q.getD []

/-- `strip_url_fragment` (lines 39-40): `url.split('#')[0]`. -/
def strip_url_fragment (url : Url) : Url := takeUntil '#' url

/-- The extension list inside `count_files_and_images` (line 45): only the
ten document/archive/spreadsheet/presentation extensions. -/
def file_extensions_cfi : List Url :=
  [lit ".pdf", lit ".doc", lit ".docx", lit ".zip", lit ".rar", lit ".ppt",
   lit ".pptx", lit ".xls", lit ".xlsx", lit ".csv"]

/-- `count_files_and_images` (lines 42-51): `(files, images)` where `files`
is the anchor hrefs containing one of `file_extensions_cfi` as a substring
and `images` the `img[src]` values; a raising DOM query yields `([], [])`. -/
def count_files_and_images (q : Option (List Url × List Url)) :
    List Url × List Url :=
  match q with
  | none => ([], [])
  | some (anchors, images) =>
    (anchors.filter (fun link =>
        file_extensions_cfi.any (fun ext => substrB ext link)), images)

/-! ## The crawl engine (`crawl_website`, lines 53-110) -/

/-- The extension list at lines 79-81 of `crawl_website`: documents plus
media extensions, used to classify a dequeued URL as a file. -/
def full_file_extensions : List Url :=
  [lit ".pdf", lit ".doc", lit ".docx", lit ".zip", lit ".rar", lit ".ppt",
   lit ".pptx", lit ".xls", lit ".xlsx", lit ".csv", lit ".jpg", lit ".jpeg",
   lit ".png", lit ".gif", lit ".mp3", lit ".wav", lit ".ogg", lit ".m4a",
   lit ".mp4", lit ".avi", lit ".mov", lit ".mkv"]

/-- Ghost instrumentation for the politeness claims: the calls to
`page.goto` and `asyncio.sleep` in program order. -/
inductive CrawlEvent where
  | nav (u : Url) : CrawlEvent
  | sleep (d : Int) : CrawlEvent
deriving DecidableEq

/-- Python `set.add`: insert at the end if absent, keeping lists
duplicate-free so that `List.length` is the set's cardinality. -/
def sinsert (x : Url) (xs : List Url) : List Url :=
  if x ∈ xs then xs else xs ++ [x]

/-- Python `set.update(ys)`: insert each element of `ys` in order. -/
def sunion (xs ys : List Url) : List Url :=
  ys.foldl (fun acc y => sinsert y acc) xs

/-- The mutable state of one `crawl_website` run: the seed `url` parameter,
the frontier `urls_to_crawl`, `visited_urls`, `pages_set`, `files_set`, the
resolved `crawl_delay`, and the ghost event trace. -/
structure CrawlState where
  seed : Url
  frontier : List Url
  visited : List Url
  pages : List Url
  files : List Url
  delay : Int
  trace : List CrawlEvent
deriving DecidableEq

/-- `len(pages_set) + len(files_set)` (line 68). -/
def itemCount (s : CrawlState) : Nat := s.pages.length + s.files.length

/-- The state at the top of the loop (lines 62-65): frontier `{url}`, all
result sets empty, `visited_urls` as supplied. -/
def initState (seed : Url) (visited : List Url) (delay : Int) : CrawlState :=
  { seed := seed, frontier := [seed], visited := visited, pages := [],
    files := [], delay := delay, trace := [] }

/-- One iteration of the `while urls_to_crawl` body after the budget check
(lines 71-107). The popped URL is fragment-stripped; a login redirect or an
already-visited URL is skipped; a URL matching `full_file_extensions` goes
straight to `files_set`; otherwise the URL is marked visited and a page,
`page.goto` runs followed by the sleep (skipped when `goto` raises, since
the exception jumps to the handler at line 106), and on a 200 response the
internal links are stripped and enqueued and the page's files and images are
unioned into `files_set`. The `ValueError` that `is_login_redirect` can
raise is outside the `try` and propagates. -/
def crawlStep (w : WebEnv) (s : CrawlState) : Except Unit CrawlState :=
  match s.frontier with
  | [] => Except.ok s
  | u :: rest =>
    let current := strip_url_fragment u
    let s1 := { s with frontier := rest }
    match is_login_redirect current with
    | Except.error e => Except.error e
    | Except.ok lr =>
      if lr then Except.ok s1
      else if current ∈ s1.visited then Except.ok s1
      else if full_file_extensions.any (fun ext => substrB ext current) then
        Except.ok { s1 with files := sinsert current s1.files }
      else
        let s2 := { s1 with visited := sinsert current s1.visited,
                            pages := sinsert current s1.pages }
        match w.nav current with
        | NavOutcome.raise =>
          Except.ok { s2 with trace := s2.trace ++ [CrawlEvent.nav current] }
        | NavOutcome.noResponse =>
          Except.ok { s2 with trace :=
            s2.trace ++ [CrawlEvent.nav current, CrawlEvent.sleep s2.delay] }
        | NavOutcome.response st =>
          let s3 := { s2 with trace :=
            s2.trace ++ [CrawlEvent.nav current, CrawlEvent.sleep s2.delay] }
          if st = 200 then
            let links := get_all_links (w.anchorsQ current)
            let internal :=
              (links.filter (fun link => substrB s3.seed link)).map
                strip_url_fragment
            let s4 := { s3 with frontier := sunion s3.frontier internal }
            let fi := count_files_and_images (w.domQ current)
            Except.ok { s4 with files := sunion s4.files (fi.1 ++ fi.2) }
          else Except.ok s3

/-- The `while urls_to_crawl` loop (lines 67-107), fuel-indexed: stop when
the frontier is empty or `len(pages_set) + len(files_set) > 200`; otherwise
run one iteration and continue, propagating an uncaught exception. -/
def runCrawl (w : WebEnv) : Nat → CrawlState → Except Unit CrawlState
  | 0, s => Except.ok s
  | Nat.succ fuel, s =>
    if s.frontier = [] then Except.ok s
    else if 200 < itemCount s then Except.ok s
    else
      match crawlStep w s with
      | Except.error e => Except.error e
      | Except.ok s1 => runCrawl w fuel s1

/-- Outcome of `launch(headless=True)` (line 54). -/
inductive LaunchOutcome where
  | ok : LaunchOutcome
  | fail : LaunchOutcome
deriving DecidableEq

/-- The exceptions that can escape `crawl_website`: the browser-launch
failure, or the `ValueError` from `urlparse` that line 73 leaves uncaught. -/
inductive CrawlError where
  | launchFailure : CrawlError
  | uncaughtValueError : CrawlError
deriving DecidableEq

/-- `crawl_website` (lines 53-110). The caller-supplied `visited_urls` set
is threaded explicitly; Python's mutable default argument is modelled at the
call sites (see the C4 theorems). The returned state carries `pages_set`,
`files_set` and the mutated `visited_urls`. -/
def crawl_website (launch : LaunchOutcome) (w : WebEnv) (fuel : Nat)
    (url : Url) (visited_urls : List Url) : Except CrawlError CrawlState :=
  match launch with
  | LaunchOutcome.fail => Except.error CrawlError.launchFailure
  | LaunchOutcome.ok =>
    match runCrawl w fuel (initState url visited_urls (resolveCrawlDelay w.robots)) with
    | Except.error _ => Except.error CrawlError.uncaughtValueError
    | Except.ok s => Except.ok s

/-- Project the final state out of a finished run (default for errors). -/
def stateOf {ε : Type} : Except ε CrawlState → CrawlState
  | Except.ok s => s
  | Except.error _ => initState [] [] 0

/-- Whether an `Except` value is a success. -/
def isOkE {ε α : Type} : Except ε α → Bool
  | Except.ok _ => true
  | Except.error _ => false

/-- Scan an event trace checking that no `nav` follows a `nav` without an
intervening `sleep`; returns the pending flag, or `none` on a violation. -/
def sepScan : Bool → List CrawlEvent → Option Bool
  | b, [] => some b
  | _, CrawlEvent.sleep _ :: rest => sepScan false rest
  | b, CrawlEvent.nav _ :: rest => if b then none else sepScan true rest

/-- True iff every `nav` event in the trace is separated from the next `nav`
by at least one `sleep`. -/
def sleepSeparated (b : Bool) (t : List CrawlEvent) : Bool :=
  (sepScan b t).isSome

/-! ## Spec-side comparison definitions (for claim C6)

The spec reads `IsLoginRedirect` as a structured test: the path contains the
literal *segment* `sign_in` and the query contains a *parameter named*
`destination`. These two definitions formalise that reading, to be compared
with the substring tests the code performs. -/

/-- The `/`-separated segments of a URL path. -/
def pathSegments (p : Url) : List Url := splitOnCharFull '/' p

/-- The names of the `&`-separated `key=value` pairs of a query string. -/
def queryParamNames (q : Url) : List Url :=
  (splitOnCharFull '&' q).map (fun kv => takeUntil '=' kv)

/-! ## Concrete executions used by counterexamples and witnesses

Where a concrete run is exhibited, the frontier pop order of the Python set
is made irrelevant: each scenario below keeps at most one eligible frontier
element per iteration, or (for `webRaising`) violates the claimed property
under every pop order, so the fixed order of the list model realises a
possible Python execution. -/

/-- A seed URL used by the concrete scenarios. -/
def seedA : Url := lit "http://a.com/"

/-- Every page links back to the seed itself (a site with a self-link). -/
def webSelfLink : WebEnv :=
  { robots := RobotsResponse.response 404 []
    nav := fun _ => NavOutcome.response 200
    anchorsQ := fun _ => some [seedA]
    domQ := fun _ => some ([], []) }

/-- A site whose navigations return no response and whose DOM queries fail:
no links or files are ever produced. -/
def webQuiet : WebEnv :=
  { robots := RobotsResponse.response 404 []
    nav := fun _ => NavOutcome.noResponse
    anchorsQ := fun _ => none
    domQ := fun _ => none }

/-- An internal link of `seedA`. -/
def linkB : Url := lit "http://a.com/b"

/-- Another internal link of `seedA`. -/
def linkC : Url := lit "http://a.com/c"

/-- The seed page renders with two internal links whose navigations both
raise (`page.goto` throwing a navigation error). -/
def webRaising : WebEnv :=
  { robots := RobotsResponse.response 404 []
    nav := fun u => if u = seedA then NavOutcome.response 200 else NavOutcome.raise
    anchorsQ := fun _ => some [linkB, linkC]
    domQ := fun _ => some ([], []) }

/-- A file link carrying the fragment `#a`. -/
def pdfA : Url := lit "http://a.com/d.pdf#a"

/-- The same file link carrying the fragment `#b`. -/
def pdfB : Url := lit "http://a.com/d.pdf#b"

/-- The fragment-stripped form of `pdfA` and `pdfB`. -/
def pdfS : Url := lit "http://a.com/d.pdf"

/-- The seed page carries two anchors to the same PDF under different
fragments; every navigation succeeds. -/
def webPdf : WebEnv :=
  { robots := RobotsResponse.response 404 []
    nav := fun _ => NavOutcome.response 200
    anchorsQ := fun _ => some [pdfA, pdfB]
    domQ := fun u => if u = seedA then some ([pdfA, pdfB], []) else some ([], []) }

/-- A site where every navigation returns HTTP 500 and robots.txt is
unreachable. -/
def webErr : WebEnv :=
  { robots := RobotsResponse.raise
    nav := fun _ => NavOutcome.response 500
    anchorsQ := fun _ => some [seedA]
    domQ := fun _ => some ([], []) }

/-- The second of two `crawl_website` invocations that both omit the
`visited_urls` argument. Python evaluates the default `visited_urls=set()`
once, at function definition time, and every defaulted call binds that same
object; `visited_urls.add` (line 86) mutates it in place. So the second
defaulted call starts from the visited set as the first call left it. -/
def secondDefaultedCall (w1 w2 : WebEnv) (fuel : Nat) (u1 u2 : Url) :
    Except CrawlError CrawlState :=
  crawl_website LaunchOutcome.ok w2 fuel u2
    (stateOf (crawl_website LaunchOutcome.ok w1 fuel u1 [])).visited

/-- A loop state already over budget: 201 pages and a nonempty frontier. -/
def wideState : CrawlState :=
  { seed := lit "http://w.com/", frontier := [lit "http://w.com/u"],
    visited := [], pages := List.replicate 201 (lit "p"), files := [],
    delay := 1, trace := [] }

/-- A small initial state for the budget witness. -/
def smallInitC2 : CrawlState := initState (lit "http://w.com/") [] 1

/-- The final state of the small budget-witness run. -/
def finalC2 : CrawlState := stateOf (runCrawl webQuiet 2 smallInitC2)

/-- The URL of the C6 counterexample: the path has `sign_in` as a segment,
but the query has no parameter named `destination` (only the substring). -/
def cexLoginUrl : Url := lit "https://ex.com/sign_in/auth?ret=destination_page"

/-- The `urlparse` components of `cexLoginUrl`. -/
def cexLoginParts : UrlParts :=
  ⟨lit "https", lit "ex.com", lit "/sign_in/auth", lit "",
   lit "ret=destination_page", lit ""⟩

/-! ## Helper lemmas -/

theorem takeUntil_not_mem (c : Char) (u : Url) : c ∉ takeUntil c u := by
  induction u with
  | nil => simp [takeUntil]
  | cons x xs ih =>
    simp only [takeUntil]
    split
    · simp
    · rename_i hx
      simp only [List.mem_cons]
      rintro (rfl | hc)
      · exact hx rfl
      · exact ih hc

theorem takeUntil_eq_self (c : Char) (u : Url) (h : c ∉ u) : takeUntil c u = u := by
  induction u with
  | nil => rfl
  | cons x xs ih =>
    have hx : ¬ x = c := fun hh => h (by simp [hh])
    have hxs : c ∉ xs := fun hh => h (List.mem_cons_of_mem _ hh)
    simp [takeUntil, hx, ih hxs]

theorem strip_url_fragment_idem (u : Url) :
    strip_url_fragment (strip_url_fragment u) = strip_url_fragment u :=
  takeUntil_eq_self _ _ (takeUntil_not_mem '#' u)

theorem mem_sinsert {x y : Url} {xs : List Url} :
    x ∈ sinsert y xs ↔ x = y ∨ x ∈ xs := by
  unfold sinsert
  split
  · rename_i hy
    constructor
    · exact Or.inr
    · rintro (rfl | h)
      · exact hy
      · exact h
  · simp [List.mem_append, or_comm]

theorem mem_sunion {x : Url} {ys xs : List Url} :
    x ∈ sunion xs ys ↔ x ∈ xs ∨ x ∈ ys := by
  induction ys generalizing xs with
  | nil => simp [sunion]
  | cons y ys ih =>
    have hstep : sunion xs (y :: ys) = sunion (sinsert y xs) ys := rfl
    rw [hstep, ih]
    simp [mem_sinsert, List.mem_cons]
    tauto

theorem sinsert_of_not_mem {y : Url} {xs : List Url} (h : y ∉ xs) :
    sinsert y xs = xs ++ [y] := by
  simp [sinsert, h]

theorem runCrawl_frontier_nil (w : WebEnv) (fuel : Nat) (s : CrawlState)
    (h : s.frontier = []) : runCrawl w fuel s = Except.ok s := by
  cases fuel with
  | zero => rfl
  | succ f => simp [runCrawl, h]

theorem runCrawl_overBudget_eq (w : WebEnv) (fuel : Nat) (s : CrawlState)
    (h : 200 < itemCount s) : runCrawl w fuel s = Except.ok s := by
  cases fuel with
  | zero => rfl
  | succ f =>
    by_cases hf : s.frontier = []
    · simp [runCrawl, hf]
    · simp [runCrawl, hf, h]

theorem runCrawl_inv (w : WebEnv) (P : CrawlState → Prop)
    (hstep : ∀ s s', P s → crawlStep w s = Except.ok s' → P s') :
    ∀ fuel s s', P s → runCrawl w fuel s = Except.ok s' → P s' := by
  intro fuel
  induction fuel with
  | zero =>
    intro s s' hP h
    cases h
    exact hP
  | succ f ih =>
    intro s s' hP h
    simp only [runCrawl] at h
    split at h
    · cases h; exact hP
    · split at h
      · cases h; exact hP
      · cases hc : crawlStep w s with
        | error e => rw [hc] at h; cases h
        | ok s1 => rw [hc] at h; exact ih s1 s' (hstep s s1 hP hc) h

theorem runCrawl_total (w : WebEnv) (P : CrawlState → Prop)
    (hstep : ∀ s, P s → ∃ s', crawlStep w s = Except.ok s' ∧ P s') :
    ∀ fuel s, P s → ∃ s', runCrawl w fuel s = Except.ok s' := by
  intro fuel
  induction fuel with
  | zero => intro s _; exact ⟨s, rfl⟩
  | succ f ih =>
    intro s hP
    by_cases hf : s.frontier = []
    · exact ⟨s, by simp [runCrawl, hf]⟩
    · by_cases hb : 200 < itemCount s
      · exact ⟨s, by simp [runCrawl, hf, hb]⟩
      · obtain ⟨s1, hc, hP1⟩ := hstep s hP
        obtain ⟨s', h'⟩ := ih s1 hP1
        exact ⟨s', by simp [runCrawl, hf, hb, hc, h']⟩

theorem runCrawl_last_step (w : WebEnv) :
    ∀ fuel s sF, itemCount s ≤ 200 → runCrawl w fuel s = Except.ok sF →
      sF = s ∨ ∃ sPre, itemCount sPre ≤ 200 ∧ crawlStep w sPre = Except.ok sF := by
  intro fuel
  induction fuel with
  | zero =>
    intro s sF _ hr
    cases hr
    exact Or.inl rfl
  | succ f ih =>
    intro s sF h hr
    simp only [runCrawl] at hr
    split at hr
    · cases hr; exact Or.inl rfl
    · split at hr
      · cases hr; exact Or.inl rfl
      · cases hc : crawlStep w s with
        | error e => rw [hc] at hr; cases hr
        | ok s1 =>
          rw [hc] at hr
          by_cases h1 : itemCount s1 ≤ 200
          · rcases ih s1 sF h1 hr with rfl | hex
            · exact Or.inr ⟨s, h, hc⟩
            · exact Or.inr hex
          · have hstop : runCrawl w f s1 = Except.ok s1 :=
              runCrawl_overBudget_eq w f s1 (by omega)
            have hr2 : runCrawl w f s1 = Except.ok sF := hr
            rw [hstop] at hr2
            cases hr2
            exact Or.inr ⟨s, h, hc⟩


theorem crawlStep_pages_stripped (w : WebEnv) (s s' : CrawlState)
    (hs : ∀ p ∈ s.pages, strip_url_fragment p = p)
    (h : crawlStep w s = Except.ok s') :
    ∀ p ∈ s'.pages, strip_url_fragment p = p := by
  cases hf : s.frontier with
  | nil =>
    simp only [crawlStep, hf] at h
    cases h
    exact hs
  | cons u rest =>
    simp only [crawlStep, hf] at h
    cases hlr : is_login_redirect (strip_url_fragment u) with
    | error e => rw [hlr] at h; cases h
    | ok lr =>
      rw [hlr] at h
      cases lr with
      | true =>
        simp only [if_true] at h
        cases h
        exact hs
      | false =>
        simp only [Bool.false_eq_true, if_false] at h
        by_cases hv : strip_url_fragment u ∈ s.visited
        · simp only [hv, if_true] at h
          cases h
          exact hs
        · simp only [hv, if_false] at h
          by_cases hext : (full_file_extensions.any fun ext => substrB ext (strip_url_fragment u)) = true
          · simp only [hext, if_true] at h
            cases h
            exact hs
          · simp only [hext, if_false] at h
            have hmark : ∀ p ∈ sinsert (strip_url_fragment u) s.pages,
                strip_url_fragment p = p := by
              intro p hp
              rcases mem_sinsert.mp hp with rfl | hp
              · exact strip_url_fragment_idem u
              · exact hs p hp
            cases hnav : w.nav (strip_url_fragment u) with
            | raise => rw [hnav] at h; cases h; exact hmark
            | noResponse => rw [hnav] at h; cases h; exact hmark
            | response st =>
              rw [hnav] at h
              by_cases hst : st = 200
              · simp only [hst, if_true] at h
                cases h
                exact hmark
              · simp only [hst, if_false] at h
                cases h
                exact hmark

theorem crawlStep_visited_append (w : WebEnv) (V : List Url) (s s' : CrawlState)
    (hs : s.visited = V ++ s.pages)
    (h : crawlStep w s = Except.ok s') :
    s'.visited = V ++ s'.pages := by
  cases hf : s.frontier with
  | nil =>
    simp only [crawlStep, hf] at h
    cases h
    exact hs
  | cons u rest =>
    simp only [crawlStep, hf] at h
    cases hlr : is_login_redirect (strip_url_fragment u) with
    | error e => rw [hlr] at h; cases h
    | ok lr =>
      rw [hlr] at h
      cases lr with
      | true =>
        simp only [if_true] at h
        cases h
        exact hs
      | false =>
        simp only [Bool.false_eq_true, if_false] at h
        by_cases hv : strip_url_fragment u ∈ s.visited
        · simp only [hv, if_true] at h
          cases h
          exact hs
        · simp only [hv, if_false] at h
          by_cases hext : (full_file_extensions.any fun ext => substrB ext (strip_url_fragment u)) = true
          · simp only [hext, if_true] at h
            cases h
            exact hs
          · simp only [hext, if_false] at h
            have hnp : strip_url_fragment u ∉ s.pages := by
              intro hp
              exact hv (by rw [hs]; exact List.mem_append_right V hp)
            have hmark : sinsert (strip_url_fragment u) s.visited =
                V ++ sinsert (strip_url_fragment u) s.pages := by
              rw [sinsert_of_not_mem hv, sinsert_of_not_mem hnp, hs,
                List.append_assoc]
            cases hnav : w.nav (strip_url_fragment u) with
            | raise => rw [hnav] at h; cases h; exact hmark
            | noResponse => rw [hnav] at h; cases h; exact hmark
            | response st =>
              rw [hnav] at h
              by_cases hst : st = 200
              · simp only [hst, if_true] at h
                cases h
                exact hmark
              · simp only [hst, if_false] at h
                cases h
                exact hmark

theorem crawlStep_skip_visited (w : WebEnv) (s : CrawlState) (u : Url)
    (rest : List Url) (hf : s.frontier = u :: rest)
    (hv : strip_url_fragment u ∈ s.visited)
    (hp : parsesOk (strip_url_fragment u) = true) :
    crawlStep w s = Except.ok { s with frontier := rest } := by
  simp only [crawlStep, hf]
  cases hq : urlparseE (strip_url_fragment u) with
  | error e => rw [parsesOk, hq] at hp; cases hp
  | ok r =>
    have hlr : is_login_redirect (strip_url_fragment u) =
        Except.ok (substrB (lit "sign_in") r.path
          && substrB (lit "destination") r.query) := by
      rw [is_login_redirect, hq]
    rw [hlr]
    cases (substrB (lit "sign_in") r.path && substrB (lit "destination") r.query) with
    | true => simp only [if_true]
    | false =>
      simp only [Bool.false_eq_true, if_false, hv, if_true]

theorem sepScan_append (t u : List CrawlEvent) :
    ∀ b, sepScan b (t ++ u) =
      (sepScan b t).bind (fun b1 => sepScan b1 u) := by
  induction t with
  | nil => intro b; rfl
  | cons e t ih =>
    intro b
    cases e with
    | sleep d =>
      simp only [List.cons_append, sepScan]
      exact ih false
    | nav v =>
      cases b with
      | false =>
        simp only [List.cons_append, sepScan, if_neg]
        exact ih true
      | true =>
        simp only [List.cons_append, sepScan, if_pos]
        rfl

theorem crawlStep_trace_block (w : WebEnv) (s s' : CrawlState)
    (hraise : ∀ u, w.nav u ≠ NavOutcome.raise)
    (h : crawlStep w s = Except.ok s') :
    s'.trace = s.trace ∨ ∃ u d,
      s'.trace = s.trace ++ [CrawlEvent.nav u, CrawlEvent.sleep d] := by
  cases hf : s.frontier with
  | nil =>
    simp only [crawlStep, hf] at h
    cases h
    exact Or.inl rfl
  | cons u rest =>
    simp only [crawlStep, hf] at h
    cases hlr : is_login_redirect (strip_url_fragment u) with
    | error e => rw [hlr] at h; cases h
    | ok lr =>
      rw [hlr] at h
      cases lr with
      | true =>
        simp only [if_true] at h
        cases h
        exact Or.inl rfl
      | false =>
        simp only [Bool.false_eq_true, if_false] at h
        by_cases hv : strip_url_fragment u ∈ s.visited
        · simp only [hv, if_true] at h
          cases h
          exact Or.inl rfl
        · simp only [hv, if_false] at h
          by_cases hext : (full_file_extensions.any fun ext => substrB ext (strip_url_fragment u)) = true
          · simp only [hext, if_true] at h
            cases h
            exact Or.inl rfl
          · simp only [hext, if_false] at h
            cases hnav : w.nav (strip_url_fragment u) with
            | raise => exact absurd hnav (hraise _)
            | noResponse =>
              rw [hnav] at h
              cases h
              exact Or.inr ⟨_, _, rfl⟩
            | response st =>
              rw [hnav] at h
              by_cases hst : st = 200
              · simp only [hst, if_true] at h
                cases h
                exact Or.inr ⟨_, _, rfl⟩
              · simp only [hst, if_false] at h
                cases h
                exact Or.inr ⟨_, _, rfl⟩

theorem crawlStep_parses_total (w : WebEnv) (s : CrawlState)
    (hl : ∀ p ls l, w.anchorsQ p = some ls → l ∈ ls →
      parsesOk (strip_url_fragment l) = true)
    (hP : ∀ x ∈ s.frontier, parsesOk (strip_url_fragment x) = true) :
    ∃ s', crawlStep w s = Except.ok s' ∧
      ∀ x ∈ s'.frontier, parsesOk (strip_url_fragment x) = true := by
  cases hf : s.frontier with
  | nil =>
    refine ⟨s, by simp only [crawlStep, hf], ?_⟩
    rw [hf] at hP
    rw [hf]
    exact hP
  | cons u rest =>
    have hrest : ∀ x ∈ rest, parsesOk (strip_url_fragment x) = true := by
      intro x hx
      exact hP x (by rw [hf]; exact List.mem_cons_of_mem u hx)
    have hu : parsesOk (strip_url_fragment u) = true :=
      hP u (by rw [hf]; exact List.mem_cons_self u rest)
    simp only [crawlStep, hf]
    cases hq : urlparseE (strip_url_fragment u) with
    | error e => rw [parsesOk, hq] at hu; cases hu
    | ok r =>
      have hlr : is_login_redirect (strip_url_fragment u) =
          Except.ok (substrB (lit "sign_in") r.path
            && substrB (lit "destination") r.query) := by
        rw [is_login_redirect, hq]
      rw [hlr]
      cases (substrB (lit "sign_in") r.path && substrB (lit "destination") r.query) with
      | true =>
        simp only [if_true]
        exact ⟨_, rfl, hrest⟩
      | false =>
        simp only [Bool.false_eq_true, if_false]
        by_cases hv : strip_url_fragment u ∈ s.visited
        · simp only [hv, if_true]
          exact ⟨_, rfl, hrest⟩
        · simp only [hv, if_false]
          by_cases hext : (full_file_extensions.any fun ext => substrB ext (strip_url_fragment u)) = true
          · simp only [hext, if_true]
            exact ⟨_, rfl, hrest⟩
          · simp only [hext, Bool.false_eq_true, if_false]
            split
            · exact ⟨_, rfl, hrest⟩
            · exact ⟨_, rfl, hrest⟩
            · split
              · refine ⟨_, rfl, ?_⟩
                intro x hx
                rw [mem_sunion] at hx
                rcases hx with hx | hx
                · exact hrest x hx
                · simp only [List.mem_map] at hx
                  obtain ⟨l, hlmem, rfl⟩ := hx
                  have hl2 := List.mem_of_mem_filter hlmem
                  rw [strip_url_fragment_idem]
                  cases hq2 : w.anchorsQ (strip_url_fragment u) with
                  | none =>
                    rw [hq2] at hl2
                    simp [get_all_links] at hl2
                  | some ls =>
                    rw [hq2] at hl2
                    simp only [get_all_links, Option.getD_some] at hl2
                    exact hl (strip_url_fragment u) ls l hq2 hl2
              · exact ⟨_, rfl, hrest⟩

/-! ## Claim theorems -/

/-- Claim C5, counterexample: the anchor href `http://a.com/photo.jpg`
contains the media extension `.jpg` (which is in the dequeue-time list
`full_file_extensions`), yet `count_files_and_images` does not include it in
the returned file set, because its internal filter uses only the ten
document extensions. -/
theorem C5_counterexample :
    substrB (lit ".jpg") (lit "http://a.com/photo.jpg") = true ∧
    (full_file_extensions.any fun ext => substrB ext (lit "http://a.com/photo.jpg")) = true ∧
    (lit "http://a.com/photo.jpg") ∉
      (count_files_and_images (some ([lit "http://a.com/photo.jpg"], []))).1 := by
  decide

/-- Claim C5 (amended): the file half of `count_files_and_images` returns
exactly the anchor hrefs containing one of the ten document/archive/
spreadsheet/presentation extensions (`file_extensions_cfi`) as a substring;
anchors matching only media extensions are not returned (media URLs enter
the Files set only via `img[src]` extraction or dequeue-time
classification). The image half returns the `img[src]` list unchanged. -/
theorem C5_theorem (anchors images : List Url) (link : Url) :
    (link ∈ (count_files_and_images (some (anchors, images))).1 ↔
      link ∈ anchors ∧
        (file_extensions_cfi.any fun ext => substrB ext link) = true) ∧
    (count_files_and_images (some (anchors, images))).2 = images := by
  constructor
  · simp [count_files_and_images, List.mem_filter]
  · rfl

/-- Claim C6, counterexample: for
`https://ex.com/sign_in/auth?ret=destination_page` the query string has no
parameter named `destination` (its only parameter is named `ret`), so the
claim says `is_login_redirect` returns false; the code returns true, because
it tests `destination` as a substring of the query string. -/
theorem C6_counterexample :
    is_login_redirect cexLoginUrl = Except.ok true ∧
    urlparseE cexLoginUrl = Except.ok cexLoginParts ∧
    lit "sign_in" ∈ pathSegments cexLoginParts.path ∧
    lit "destination" ∉ queryParamNames cexLoginParts.query := by
  decide

/-- Claim C6 (amended): for every URL that `urlparse` accepts,
`is_login_redirect` returns true iff `sign_in` occurs as a substring of the
parsed path and `destination` occurs as a substring of the parsed query
string — plain substring tests, not segment or parameter-name tests. -/
theorem C6_theorem (u : Url) (r : UrlParts) (h : urlparseE u = Except.ok r) :
    is_login_redirect u = Except.ok true ↔
      substrB (lit "sign_in") r.path = true ∧
      substrB (lit "destination") r.query = true := by
  rw [is_login_redirect, h]
  simp [Bool.and_eq_true]

/-- Witness for C6 at a URL that is a genuine login redirect. -/
theorem C6_witness :
    is_login_redirect (lit "https://ex.com/sign_in?destination=/h") = Except.ok true ↔
      substrB (lit "sign_in") (lit "/sign_in") = true ∧
      substrB (lit "destination") (lit "destination=/h") = true :=
  C6_theorem (lit "https://ex.com/sign_in?destination=/h")
    ⟨lit "https", lit "ex.com", lit "/sign_in", lit "",
     lit "destination=/h", lit ""⟩ (by decide)

/-- Claim C9: the resolved crawl delay is exactly 1 second whenever the
robots.txt request raises, returns a non-200 status, its body has no line
containing `Crawl-delay`, or the first such line does not parse as an
integer after the first colon. -/
theorem C9_theorem (st : Int) (body : List Url) (line : Url) :
    resolveCrawlDelay RobotsResponse.raise = 1 ∧
    (st ≠ 200 → resolveCrawlDelay (RobotsResponse.response st body) = 1) ∧
    ((∀ l ∈ body, substrB crawlDelayTok l = false) →
      resolveCrawlDelay (RobotsResponse.response 200 body) = 1) ∧
    ((body.find? fun l => substrB crawlDelayTok l) = some line →
      parseAfterColon line = none →
      resolveCrawlDelay (RobotsResponse.response 200 body) = 1) := by
  refine ⟨rfl, ?_, ?_, ?_⟩
  · intro h
    simp [resolveCrawlDelay, get_crawl_delay_from_robots_txt, h]
  · intro h
    have hnone : (body.find? fun l => substrB crawlDelayTok l) = none :=
      List.find?_eq_none.mpr (by intro x hx; simp [h x hx])
    simp [resolveCrawlDelay, get_crawl_delay_from_robots_txt, hnone]
  · intro hfind hparse
    simp [resolveCrawlDelay, get_crawl_delay_from_robots_txt, hfind, hparse]

/-- Witness for C9: the four fallback conditions at concrete responses,
including the spec's scenario of robots.txt returning HTTP 404. -/
theorem C9_witness :
    resolveCrawlDelay RobotsResponse.raise = 1 ∧
    resolveCrawlDelay (RobotsResponse.response 404 []) = 1 ∧
    resolveCrawlDelay (RobotsResponse.response 200 [lit "User-agent: *"]) = 1 ∧
    resolveCrawlDelay (RobotsResponse.response 200 [lit "Crawl-delay: fast"]) = 1 :=
  ⟨(C9_theorem 404 [] []).1,
   (C9_theorem 404 [] []).2.1 (by decide),
   (C9_theorem 200 [lit "User-agent: *"] []).2.2.1 (by decide),
   (C9_theorem 200 [lit "Crawl-delay: fast"] (lit "Crawl-delay: fast")).2.2.2
     (by decide) (by decide)⟩

/-- Claim C1, counterexample: crawling a page that links back to itself
puts the seed back into the frontier after the very first iteration, while
the seed is already in Visited — the enqueue step (line 103) does not filter
against `visited_urls`, so `Visited ∩ Frontier ≠ ∅`. (The frontier holds one
element throughout, so the list model realises the only possible Python set
pop order.) -/
theorem C1_counterexample :
    isOkE (runCrawl webSelfLink 1 (initState seedA [] 1)) = true ∧
    seedA ∈ (stateOf (runCrawl webSelfLink 1 (initState seedA [] 1))).visited ∧
    seedA ∈ (stateOf (runCrawl webSelfLink 1 (initState seedA [] 1))).frontier := by
  decide

/-- Claim C1 (amended): the frontier may contain URLs already in Visited —
deduplication happens at dequeue, not at enqueue. The invariant that holds
instead: whenever the URL popped from the frontier is already in Visited
(and its parse does not raise), the iteration is a pure skip — the state is
unchanged except that the URL leaves the frontier — so no visited URL is
ever navigated again or added to Pages or Files a second time. -/
theorem C1_theorem (w : WebEnv) (s : CrawlState) (u : Url) (rest : List Url)
    (hf : s.frontier = u :: rest)
    (hv : strip_url_fragment u ∈ s.visited)
    (hp : parsesOk (strip_url_fragment u) = true) :
    crawlStep w s = Except.ok { s with frontier := rest } :=
  crawlStep_skip_visited w s u rest hf hv hp

/-- Witness for C1 at a concrete state whose frontier head is visited. -/
theorem C1_witness :
    crawlStep webQuiet
      { seed := seedA, frontier := [linkB], visited := [linkB],
        pages := [linkB], files := [], delay := 1, trace := [] } =
    Except.ok
      { seed := seedA, frontier := [], visited := [linkB],
        pages := [linkB], files := [], delay := 1, trace := [] } :=
  C1_theorem webQuiet
    { seed := seedA, frontier := [linkB], visited := [linkB],
      pages := [linkB], files := [], delay := 1, trace := [] }
    linkB [] rfl (by decide) (by decide)

/-- Claim C2: with the budget fixed at 200, a loop state with
`|Pages| + |Files| > 200` at the top of the loop runs no further iteration
(the run returns it unchanged); and any run started within budget ends
either unchanged or in a state produced by a single `crawlStep` from a
state that was still within budget — so the final total exceeds 200 by at
most the items added in the one iteration that crossed the threshold. -/
theorem C2_theorem (w : WebEnv) (fuel : Nat) (s sF : CrawlState) :
    (200 < itemCount s → runCrawl w fuel s = Except.ok s) ∧
    (itemCount s ≤ 200 → runCrawl w fuel s = Except.ok sF →
      sF = s ∨ ∃ sPre, itemCount sPre ≤ 200 ∧ crawlStep w sPre = Except.ok sF) :=
  ⟨runCrawl_overBudget_eq w fuel s, runCrawl_last_step w fuel s sF⟩

set_option maxRecDepth 4000 in
/-- Witness for C2: an over-budget state (201 pages) is returned untouched,
and a small in-budget run ends in a state reached by one step from an
in-budget state. -/
theorem C2_witness :
    runCrawl webQuiet 3 wideState = Except.ok wideState ∧
    (finalC2 = smallInitC2 ∨
      ∃ sPre, itemCount sPre ≤ 200 ∧ crawlStep webQuiet sPre = Except.ok finalC2) :=
  ⟨(C2_theorem webQuiet 3 wideState wideState).1 (by decide),
   (C2_theorem webQuiet 2 smallInitC2 finalC2).2 (by decide) (by decide)⟩

/-- Claim C4, counterexample: modelling Python's once-evaluated mutable
default argument (`visited_urls=set()`, line 53), a first defaulted call on
`seedA` marks the seed (Pages = `[seedA]`), and a second defaulted call with
the same seed receives the mutated shared set, skips the seed, and returns
Pages = `[]` — not the `[seedA]` that an independent empty-Visited run
produces. The run is thus not independent of earlier invocations. -/
theorem C4_counterexample :
    (stateOf (crawl_website LaunchOutcome.ok webQuiet 3 seedA [])).pages = [seedA] ∧
    (stateOf (secondDefaultedCall webQuiet webQuiet 3 seedA seedA)).pages = [] := by
  decide

/-- Claim C4 (amended): `visited_urls` persists and accumulates: a finished
run's visited set is exactly the caller-supplied (or shared-default) set
followed by the pages of that run. Hence a defaulted invocation starts from
the visited set accumulated by all earlier defaulted invocations, and starts
empty only when no earlier defaulted invocation marked a page. -/
theorem C4_theorem (w : WebEnv) (fuel : Nat) (seed : Url) (V : List Url)
    (s : CrawlState)
    (h : crawl_website LaunchOutcome.ok w fuel seed V = Except.ok s) :
    s.visited = V ++ s.pages := by
  simp only [crawl_website] at h
  cases hr : runCrawl w fuel (initState seed V (resolveCrawlDelay w.robots)) with
  | error e => rw [hr] at h; cases h
  | ok s1 =>
    rw [hr] at h
    cases h
    exact runCrawl_inv w (fun st => st.visited = V ++ st.pages)
      (fun t t' => crawlStep_visited_append w V t t') fuel _ _
      (by simp [initState]) hr

/-- Witness for C4 at a concrete one-page run. -/
theorem C4_witness :
    (stateOf (crawl_website LaunchOutcome.ok webErr 3 seedA [linkC])).visited =
      [linkC] ++ (stateOf (crawl_website LaunchOutcome.ok webErr 3 seedA [linkC])).pages :=
  C4_theorem webErr 3 seedA [linkC]
    (stateOf (crawl_website LaunchOutcome.ok webErr 3 seedA [linkC])) (by decide)

/-- Claim C3, counterexample: with the browser launched successfully, a
malformed seed URL (`http://[bad/x`, whose netloc has an unbalanced bracket)
makes `urlparse` raise `ValueError` inside `is_login_redirect` — which line
73 calls *outside* the per-URL `try` — so the error escapes `crawl_website`
even though it is not a browser-launch failure. -/
theorem C3_counterexample :
    crawl_website LaunchOutcome.ok webQuiet 5 (lit "http://[bad/x") [] =
      Except.error CrawlError.uncaughtValueError := by
  decide

/-- Claim C3 (amended): navigation failures, non-200 statuses, DOM-query
failures and robots.txt errors are all caught and the crawl completes
normally for every environment, provided the seed and every extracted link
parse without error; a browser-launch failure propagates as the setup
error. (A URL that makes `urlparse` raise is the exception: that error is
uncaught, see the counterexample.) -/
theorem C3_theorem (w : WebEnv) (fuel : Nat) (seed : Url) (V : List Url)
    (hs : parsesOk (strip_url_fragment seed) = true)
    (hl : ∀ p ls l, w.anchorsQ p = some ls → l ∈ ls →
      parsesOk (strip_url_fragment l) = true) :
    isOkE (crawl_website LaunchOutcome.ok w fuel seed V) = true ∧
    crawl_website LaunchOutcome.fail w fuel seed V =
      Except.error CrawlError.launchFailure := by
  constructor
  · have hP : ∀ x ∈ (initState seed V (resolveCrawlDelay w.robots)).frontier,
        parsesOk (strip_url_fragment x) = true := by
      intro x hx
      simp only [initState, List.mem_singleton] at hx
      subst hx
      exact hs
    obtain ⟨s', h'⟩ := runCrawl_total w
      (fun t => ∀ x ∈ t.frontier, parsesOk (strip_url_fragment x) = true)
      (fun t ht => crawlStep_parses_total w t hl ht) fuel _ hP
    simp only [crawl_website, h', isOkE]
  · rfl

/-- Witness for C3: a run over a site whose every navigation returns no
response and whose DOM queries raise still completes, and the launch
failure is the propagated setup error. -/
theorem C3_witness :
    isOkE (crawl_website LaunchOutcome.ok webQuiet 4 (lit "http://w.com/") []) = true ∧
    crawl_website LaunchOutcome.fail webQuiet 4 (lit "http://w.com/") [] =
      Except.error CrawlError.launchFailure :=
  C3_theorem webQuiet 4 (lit "http://w.com/") [] (by decide)
    (fun p ls l h _ => nomatch h)

/-- Helper for claim C7: the single iteration on a fresh seed whose
navigation returns HTTP 500 marks the seed visited and a page, emits the
navigation and the sleep, and adds nothing else. -/
theorem crawlStep_seed500 (w : WebEnv) (seed : Url) (D : Int)
    (hnav : w.nav seed = NavOutcome.response 500)
    (hlr : is_login_redirect seed = Except.ok false)
    (hext : (full_file_extensions.any fun ext => substrB ext seed) = false)
    (hfrag : strip_url_fragment seed = seed) :
    crawlStep w (initState seed [] D) =
      Except.ok { seed := seed, frontier := [], visited := [seed],
                  pages := [seed], files := [], delay := D,
                  trace := [CrawlEvent.nav seed, CrawlEvent.sleep D] } := by
  simp only [crawlStep, initState]
  rw [hfrag, hlr]
  simp only [Bool.false_eq_true, if_false, List.not_mem_nil, ite_false, hext,
    hnav, sinsert, List.nil_append]
  rw [if_neg (by decide : ¬ (500 : Int) = 200)]

/-- Claim C7: a dequeued page URL is marked in Visited and Pages before the
navigation is attempted, so a failed fetch still counts it: for a seed
(fragment-free, not a login redirect, not extension-classified) whose
navigation returns HTTP 500, the crawl returns Pages = `[seed]` and
Files = `[]`, whatever links the environment would have served. -/
theorem C7_theorem (w : WebEnv) (seed : Url) (fuel : Nat)
    (hnav : w.nav seed = NavOutcome.response 500)
    (hlr : is_login_redirect seed = Except.ok false)
    (hext : (full_file_extensions.any fun ext => substrB ext seed) = false)
    (hfrag : strip_url_fragment seed = seed)
    (hfuel : 1 ≤ fuel) :
    isOkE (crawl_website LaunchOutcome.ok w fuel seed []) = true ∧
    (stateOf (crawl_website LaunchOutcome.ok w fuel seed [])).pages = [seed] ∧
    (stateOf (crawl_website LaunchOutcome.ok w fuel seed [])).files = [] := by
  obtain ⟨f, rfl⟩ : ∃ f, fuel = f + 1 := ⟨fuel - 1, by omega⟩
  have hstep := crawlStep_seed500 w seed (resolveCrawlDelay w.robots) hnav hlr hext hfrag
  have hrun : runCrawl w (f + 1) (initState seed [] (resolveCrawlDelay w.robots)) =
      Except.ok { seed := seed, frontier := [], visited := [seed],
                  pages := [seed], files := [],
                  delay := resolveCrawlDelay w.robots,
                  trace := [CrawlEvent.nav seed,
                            CrawlEvent.sleep (resolveCrawlDelay w.robots)] } := by
    simp only [runCrawl]
    rw [if_neg (by simp [initState]), if_neg (by simp [initState, itemCount]), hstep]
    exact runCrawl_frontier_nil w f _ rfl
  simp only [crawl_website, hrun, stateOf, isOkE]
  exact ⟨trivial, trivial, trivial⟩

/-- Witness for C7: the spec's scenario over `webErr`, where every
navigation returns HTTP 500. -/
theorem C7_witness :
    isOkE (crawl_website LaunchOutcome.ok webErr 3 seedA []) = true ∧
    (stateOf (crawl_website LaunchOutcome.ok webErr 3 seedA [])).pages = [seedA] ∧
    (stateOf (crawl_website LaunchOutcome.ok webErr 3 seedA [])).files = [] :=
  C7_theorem webErr seedA 3 (by decide) (by decide) (by decide) (by decide)
    (by decide)

/-- Claim C8, counterexample: over `webRaising` the seed navigates with
status 200 and yields two internal links whose navigations both raise; the
sleep at line 92 sits after `page.goto` inside the `try`, so a raising
`goto` skips it, and the trace contains two consecutive navigations with no
sleep between them (this happens under either pop order of the two links,
since both raise). -/
theorem C8_counterexample :
    isOkE (crawl_website LaunchOutcome.ok webRaising 5 seedA []) = true ∧
    sleepSeparated false
      (stateOf (crawl_website LaunchOutcome.ok webRaising 5 seedA [])).trace = false := by
  decide

/-- Claim C8 (amended): when no navigation raises — `page.goto` returns a
response object or `None`, with any status including non-200 — every
navigation in the trace is followed by a sleep for the resolved delay
before the next navigation; only a raising navigation skips the sleep. -/
theorem C8_theorem (w : WebEnv) (hraise : ∀ u, w.nav u ≠ NavOutcome.raise)
    (L : LaunchOutcome) (fuel : Nat) (seed : Url) (V : List Url) (s : CrawlState)
    (h : crawl_website L w fuel seed V = Except.ok s) :
    sleepSeparated false s.trace = true := by
  cases L with
  | fail => cases h
  | ok =>
    simp only [crawl_website] at h
    cases hr : runCrawl w fuel (initState seed V (resolveCrawlDelay w.robots)) with
    | error e => rw [hr] at h; cases h
    | ok s1 =>
      rw [hr] at h
      cases h
      have hstep : ∀ t t', sepScan false t.trace = some false →
          crawlStep w t = Except.ok t' → sepScan false t'.trace = some false := by
        intro t t' hP hc
        rcases crawlStep_trace_block w t t' hraise hc with heq | ⟨u, d, heq⟩
        · rw [heq]; exact hP
        · rw [heq, sepScan_append, hP]
          rfl
      have hinv := runCrawl_inv w (fun st => sepScan false st.trace = some false)
        hstep fuel _ _ (by simp [initState, sepScan]) hr
      unfold sleepSeparated
      rw [hinv]
      rfl

/-- Witness for C8: a three-navigation crawl (the self-linking site) whose
navigations never raise has a fully sleep-separated trace. -/
theorem C8_witness :
    sleepSeparated false
      (stateOf (crawl_website LaunchOutcome.ok webSelfLink 4 seedA [])).trace = true :=
  C8_theorem webSelfLink (fun u h => nomatch h) LaunchOutcome.ok 4 seedA []
    (stateOf (crawl_website LaunchOutcome.ok webSelfLink 4 seedA [])) (by decide)

/-- Claim C10: every URL in Pages is fragment-stripped (the dequeue strips
before marking), while files and images extracted from a rendered page are
added to Files verbatim: over `webPdf` the final Files set is
`[pdfA, pdfB, pdfS]` — the two fragment-variants of the same PDF as
extracted, plus the stripped form added when the enqueued (stripped) link
was dequeue-classified — all counting toward the budget
(`itemCount = 4`). -/
theorem C10_theorem :
    (∀ (w : WebEnv) (fuel : Nat) (seed : Url) (V : List Url) (s : CrawlState),
      crawl_website LaunchOutcome.ok w fuel seed V = Except.ok s →
      ∀ p ∈ s.pages, strip_url_fragment p = p) ∧
    ((stateOf (crawl_website LaunchOutcome.ok webPdf 5 seedA [])).files =
        [pdfA, pdfB, pdfS] ∧
      pdfA ≠ pdfB ∧
      strip_url_fragment pdfA = strip_url_fragment pdfB ∧
      pdfS = strip_url_fragment pdfA ∧
      itemCount (stateOf (crawl_website LaunchOutcome.ok webPdf 5 seedA [])) = 4) := by
  constructor
  · intro w fuel seed V s h
    simp only [crawl_website] at h
    cases hr : runCrawl w fuel (initState seed V (resolveCrawlDelay w.robots)) with
    | error e => rw [hr] at h; cases h
    | ok s1 =>
      rw [hr] at h
      cases h
      exact runCrawl_inv w (fun st => ∀ p ∈ st.pages, strip_url_fragment p = p)
        (fun t t' hP hc => crawlStep_pages_stripped w t t' hP hc) fuel _ _
        (by simp [initState]) hr
  · decide

/-- Witness for C10: the stripped-pages half applied to the `webPdf` run at
its (fragment-free) page `seedA`. -/
theorem C10_witness :
    strip_url_fragment seedA = seedA :=
  C10_theorem.1 webPdf 5 seedA []
    (stateOf (crawl_website LaunchOutcome.ok webPdf 5 seedA [])) (by decide)
    seedA (by decide)
